import Mathlib

/-!
# Tunings.h: a shallow embedding

The declarations of `include/Tunings.h` as Lean definitions, followed by the
properties proved about them.

Conventions of the embedding:
* a C++ `double` is an exact real number (no rounding is modelled);
* `int` and `int64_t` are `Int`: the integer arithmetic below is the shift `1 << 5`
  and sums and quotients of note numbers, none of which nears the word size for a
  note of the table window;
* `std::string` is `String`, `std::vector<T>` is `List T`;
* a constructor `T::T(...)` is the definition `T.new`;
* a data member the constructor leaves uninitialised is an argument of `T.new`.

`Tunings.h` ends with `#include "TuningsImpl.h"`; the bodies of the functions it
only declares live there. Whatever is taken from the written specification
instead of from `Tunings.h` says so in its doc comment.
-/

namespace Tunings

/-! ## Data model (Tunings.h) -/

/-- The constant `MIDI_0_FREQ` (Tunings.h:44), the literal as written. -/
def MIDI_0_FREQ : ℝ := 8.17579891564371

/-- The enum `Tone::Type` (Tunings.h:54-58). -/
inductive ToneType where
  | kToneCents
  | kToneRatio
deriving DecidableEq

/-- The struct `Tone` (Tunings.h:52-71). -/
structure Tone where
  type : ToneType
  cents : ℝ
  ratio_d : Int
  ratio_n : Int
  stringRep : String
  floatValue : ℝ
  lineno : Int

/-- The constructor `Tone::Tone()` (Tunings.h:68-70). Its initialiser list does not
mention `lineno`, which is therefore whatever value the object happens to hold. -/
def Tone.new (lineno : Int) : Tone :=
  { type := ToneType.kToneRatio
    cents := 0
    ratio_d := 1
    ratio_n := 1
    stringRep := "1/1"
    floatValue := 1.0
    lineno := lineno }

/-- The struct `Scale` (Tunings.h:87-97). -/
structure Scale where
  name : String
  description : String
  rawText : String
  count : Int
  tones : List Tone
  comments : List String

/-- The constructor `Scale::Scale()` (Tunings.h:96): the two vectors, which the
initialiser list does not mention, are empty. -/
def Scale.new : Scale :=
  { name := "empty scale"
    description := ""
    rawText := ""
    count := 0
    tones := []
    comments := [] }

/-- The struct `KeyboardMapping` (Tunings.h:108-122). Its constructor is declared
at line 121 and defined in `TuningsImpl.h`. -/
structure KeyboardMapping where
  count : Int
  firstMidi : Int
  lastMidi : Int
  middleNote : Int
  tuningConstantNote : Int
  tuningFrequency : ℝ
  tuningPitch : ℝ
  octaveDegrees : Int
  keys : List Int
  rawText : String
  name : String

/-- The struct `NotationMapping` (Tunings.h:128-134). -/
structure NotationMapping where
  count : Int
  names : List String

/-- The constructor `NotationMapping::NotationMapping()` (Tunings.h:133). -/
def NotationMapping.new : NotationMapping :=
  { count := 0
    names := [] }

/-- The data members of `AbletonScale` (Tunings.h:141-164). -/
structure AbletonScale where
  scale : Scale
  referencePitchOctave : Int
  referencePitchIndex : Int
  referencePitchFreq : ℝ
  keyboardMapping : KeyboardMapping
  notationMapping : NotationMapping
  source : String
  link : String
  rawTexts : List String

/-- The constructor `AbletonScale::AbletonScale()` (Tunings.h:154-158). The members
it does not list are default-constructed; `KeyboardMapping()` is defined outside
`Tunings.h`, so the mapping it yields is the argument `km`. The C++ expression
`1 << 5` shifts the `int` 1 and is converted to `double` for the product. -/
def AbletonScale.new (km : KeyboardMapping) : AbletonScale :=
  { scale := Scale.new
    referencePitchOctave := 3
    referencePitchIndex := 0
    referencePitchFreq := MIDI_0_FREQ * (((1 <<< 5 : Nat) : Int) : ℝ)
    keyboardMapping := km
    notationMapping := NotationMapping.new
    source := ""
    link := ""
    rawTexts := [] }

/-- The class `TuningError` (Tunings.h:170-178): its one data member. -/
structure TuningError where
  whatv : String

/-- The constructor `TuningError::TuningError(std::string m)` (Tunings.h:173). -/
def TuningError.new (m : String) : TuningError :=
  { whatv := m }

/-- The text that the `const char *` returned by `std::string::c_str()` denotes: the
characters of the string up to, and without, the first NUL character. The pointer
carries no length, so whoever reads it stops at the first terminator. -/
def c_str (s : String) : String :=
  String.mk (s.data.takeWhile (fun c => c != Char.ofNat 0))

/-- The member `TuningError::what()` (Tunings.h:174): `return whatv.c_str();`. -/
def TuningError.what (e : TuningError) : String :=
  c_str e.whatv

/-- The constant `Tuning::N` (Tunings.h:280), "the number of notes we pre-compute";
it is the length of `ptable`, `lptable` and `scalepositiontable` (Tunings.h:346-347). -/
def Tuning.N : Int := 512

/-! ## The table window -/

/-- Modelled from the spec: the note-to-index transform of the three tables, whose
code is in `TuningsImpl.h`. The spec (section 3, Tuning) has the tables "indexed by
`midiNote + offset`", the window "centered so notes from -256 to +255 are
addressable": the offset is 256. -/
def Tuning.tableIndex (mn : Int) : Int := mn + 256

/-! ## Tone parser (spec 4.1) -/

/-- Modelled from the spec: part of the tone parser of section 4.1 (`toneFromString`,
declared at Tunings.h:76, its body in `TuningsImpl.h`): the number a list of decimal
digits writes. -/
def digitsToNat (cs : List Char) : Nat :=
  cs.foldl (fun n c => 10 * n + (c.toNat - 48)) 0

/-- Modelled from the spec: part of the tone parser of section 4.1: a non-empty run of
decimal digits, as a number; anything else is "malformed numeric text". -/
def parseNat? (cs : List Char) : Option Nat :=
  if !cs.isEmpty && cs.all Char.isDigit then some (digitsToNat cs) else none

/-- Modelled from the spec: part of the tone parser of section 4.1: an integer, written
as an optional minus sign and digits. -/
def parseInt? (cs : List Char) : Option Int :=
  match cs with
  | '-' :: ds => (parseNat? ds).map (fun n => -(n : Int))
  | _ => (parseNat? cs).map (fun n => (n : Int))

/-- Modelled from the spec: part of the tone parser of section 4.1, the "decimal value
in cents": an optional minus sign, digits, and optionally a point with further digits. The result is the pair `(m, k)` that stands for `m / 10 ^ k`: `m` is
the signed integer written by all the digits, `k` the number of digits after the
point. -/
def parseDecimal? (cs : List Char) : Option (Int × Nat) :=
  let neg := cs.head? == some '-'
  let body := if neg then cs.drop 1 else cs
  let ip := body.takeWhile (fun c => c != '.')
  let fp := (body.dropWhile (fun c => c != '.')).drop 1
  match parseNat? ip, (if fp.isEmpty then some 0 else parseNat? fp) with
  | some i, some f =>
      let m : Int := ((i * 10 ^ fp.length + f : Nat) : Int)
      some (if neg then -m else m, fp.length)
  | _, _ => none

/-- Modelled from the spec: what a degree text reads as under the classification rule of
section 4.1, before any floating-point value is derived: a ratio of two integers, a
decimal `m / 10 ^ k` of cents, or a parse failure. -/
inductive ToneText where
  | ratio (n d : Int)
  | cents (m : Int) (k : Nat)
  | malformed
deriving DecidableEq

/-- Modelled from the spec: the classification rule of section 4.1, the front half of
`toneFromString` (declared at Tunings.h:76, defined in `TuningsImpl.h`). "If the text
contains a `/` with no decimal point before it, treat as
`ratioNumerator/ratioDenominator` (denominator defaults to 1 if absent); otherwise
treat as a decimal value in cents. Either numerator/denominator must be positive
integers; a ratio of `0/...` or `.../0` is invalid." -/
def readToneText (t : String) : ToneText :=
  let num := t.data.takeWhile (fun c => c != '/')
  let rest := t.data.dropWhile (fun c => c != '/')
  if !rest.isEmpty && !num.contains '.' then
    let den := rest.drop 1
    match parseInt? num, (if den.isEmpty then some 1 else parseInt? den) with
    | some n, some d => if 0 < n ∧ 0 < d then ToneText.ratio n d else ToneText.malformed
    | _, _ => ToneText.malformed
  else
    match parseDecimal? t.data with
    | some (m, k) => ToneText.cents m k
    | none => ToneText.malformed

/-- Modelled from the spec: `toneFromString` (declared at Tunings.h:76, defined in
`TuningsImpl.h`), section 4.1 with the Tone fields of section 3.
`cents = ratio==None ? parsedDecimal : 1200 * log2(numerator/denominator)`, and the
derived member is `cents/1200 + 1` (spec section 3 `pitchRatio`, the comment on
`floatValue` at Tunings.h:64). The text and the line number are kept as provenance;
what the spec leaves open (the ratio members of a cents tone) stays as `Tone()` sets
it. A malformed text, or a ratio term that is not positive, is
"a format error naming the offending line number and raw text". In C++ the argument
`lineno` defaults to -1. -/
noncomputable def toneFromString (t : String) (lineno : Int) : Except TuningError Tone :=
  match readToneText t with
  | ToneText.ratio n d =>
      let c : ℝ := 1200 * Real.logb 2 ((n : ℝ) / (d : ℝ))
      Except.ok { Tone.new lineno with
        type := ToneType.kToneRatio, ratio_n := n, ratio_d := d, cents := c,
        stringRep := t, floatValue := c / 1200 + 1 }
  | ToneText.cents m k =>
      let c : ℝ := (m : ℝ) / (10 : ℝ) ^ k
      Except.ok { Tone.new lineno with
        type := ToneType.kToneCents, cents := c,
        stringRep := t, floatValue := c / 1200 + 1 }
  | ToneText.malformed =>
      Except.error (TuningError.new
        ("Invalid tone on line " ++ toString lineno ++ ": " ++ t))

/-! ## Scale generators (spec 4.2) -/

/-- Modelled from the spec: the frequency ratio of a tone to the root of its scale.
Cents are the "logarithmic pitch unit, 1200 per period-doubling" (glossary), so a tone
`cents` above the root sounds at `2 ^ (cents / 1200)` times the root: 1.5 for `3/2`,
about 1.4983 for 700 cents (spec section 8). The stored member `floatValue` is
`cents / 1200 + 1` (Tunings.h:64), one more than the base-2 logarithm of this
ratio; only with the ratio read this way does the documented standard tuning
(Tunings.h:305-315: 440 Hz at note 69, a doubling per octave) come out of the table
construction of spec section 4.5. -/
noncomputable def Tone.frequencyRatio (t : Tone) : ℝ :=
  (2 : ℝ) ^ (t.cents / 1200)

/-- Modelled from the spec: the Tone a builtin generator emits for a degree `c` cents
above the root. The spec fixes `cents` and the member derived from it; the tone is of
the cents kind, belongs to no line of text (`lineno` is -1, as the default argument
of `toneFromString`), and its other members are as `Tone()` sets them. -/
noncomputable def Tone.ofCents (c : ℝ) : Tone :=
  { Tone.new (-1) with type := ToneType.kToneCents, cents := c, floatValue := c / 1200 + 1 }

/-- Modelled from the spec: `evenDivisionOfSpanByM` (declared at Tunings.h:206, defined
in `TuningsImpl.h`). Section 4.2: "equal division of a span (e.g., divide an octave
into M equal steps) - produces `degreeCount=M` tones of equal cents spacing summing
to `1200*log2(span)`": the step is `1200*log2(Span)/M` and degree `i` (counted from 0)
lies `i+1` steps above the root. The informational members are as `Scale()` sets
them. -/
noncomputable def evenDivisionOfSpanByM (Span M : Int) : Scale :=
  { Scale.new with
    count := M
    tones := (List.range M.toNat).map
      (fun (i : Nat) =>
        Tone.ofCents (((i : ℝ) + 1) * (1200 * Real.logb 2 (Span : ℝ) / (M : ℝ)))) }

/-- Modelled from the spec: `evenTemperament12NoteScale` (declared at Tunings.h:199, its
body in `TuningsImpl.h`), "the standard tuning scale": twelve-tone equal
temperament, twelve degrees a semitone (100 cents) apart, the last one the octave
(spec section 8: `degreeCount=12`, last degree cents = 1200.0). -/
noncomputable def evenTemperament12NoteScale : Scale :=
  { Scale.new with
    count := 12
    tones := [100, 200, 300, 400, 500, 600, 700, 800, 900, 1000, 1100, 1200].map Tone.ofCents }

/-! ## Keyboard mapping default (spec 3) -/

/-- Modelled from the spec: the constructor `KeyboardMapping::KeyboardMapping()`
(declared at Tunings.h:121, defined in `TuningsImpl.h`). Section 3: "Default: identity
mapping, `mapSize=0`, `middleNote=60`, `anchorNote=60`, `anchorFrequency` =
standard-tuning frequency of note 60", five octaves above note 0, and
`pitch = frequency / MIDI_0_FREQ` (Tunings.h:114). The spec gives no default for
`firstMidi`, `lastMidi` and `octaveDegrees`: they are arguments. -/
noncomputable def KeyboardMapping.new (firstMidi lastMidi octaveDegrees : Int) :
    KeyboardMapping :=
  { count := 0
    firstMidi := firstMidi
    lastMidi := lastMidi
    middleNote := 60
    tuningConstantNote := 60
    tuningFrequency := MIDI_0_FREQ * 2 ^ 5
    tuningPitch := MIDI_0_FREQ * 2 ^ 5 / MIDI_0_FREQ
    octaveDegrees := octaveDegrees
    keys := []
    rawText := ""
    name := "" }

/-! ## Tuning engine (spec 4.5) -/

/-- The data members of the class `Tuning` (Tunings.h:341-348); the three
`std::array`s of length `N` are lists. -/
structure Tuning where
  scale : Scale
  keyboardMapping : KeyboardMapping
  notationMapping : NotationMapping
  ptable : List ℝ
  lptable : List ℝ
  scalepositiontable : List Int
  allowTuningCenterOnUnmapped : Bool

/-- Modelled from the spec: the scale the table math of section 4.5 runs on. "A Scale
with `degreeCount=0` behaves as standard 12-tone equal temperament for all table
math." -/
noncomputable def tableScale (s : Scale) : Scale :=
  if s.count = 0 then evenTemperament12NoteScale else s

/-- Modelled from the spec: step 2 of section 4.5, "`periodLength = mapping.mapSize` if
the mapping has explicit keys, else `= scale.degreeCount`" (twelve for standard
tuning). -/
noncomputable def periodLength (s : Scale) (k : KeyboardMapping) : Int :=
  if k.count = 0 then (tableScale s).count else k.count

/-- Modelled from the spec: steps 1 and 2, `rel = mn - mapping.middleNote` and
`period = floor(rel / periodLength)`. Integer division in Lean rounds down whenever the
divisor is positive. -/
noncomputable def period (s : Scale) (k : KeyboardMapping) (mn : Int) : Int :=
  (mn - k.middleNote) / periodLength s k

/-- Modelled from the spec: steps 1 and 2, `posInPeriod = rel mod periodLength`
(non-negative residue). -/
noncomputable def posInPeriod (s : Scale) (k : KeyboardMapping) (mn : Int) : Int :=
  (mn - k.middleNote) % periodLength s k

/-- Modelled from the spec: step 3, "`degreeIndex = mapping.keys[posInPeriod]` if an
explicit mapping exists; for an identity mapping, `degreeIndex = posInPeriod`". The
unmapped sentinel is -1 (Tunings.h:116), which is also what a missing key reads as. -/
noncomputable def degreeIndex (s : Scale) (k : KeyboardMapping) (mn : Int) : Int :=
  if k.count = 0 then posInPeriod s k mn
  else k.keys.getD (posInPeriod s k mn).toNat (-1)

/-- Modelled from the spec: step 5, the pitch ratio of a degree from the root: "degree
`k`'s contribution is `scale.degrees[k-1].pitchRatio` relative to unison, or exactly 1
for degree 0". A negative index (unmapped) or one past the scale has none. -/
noncomputable def degreeRatio (s : Scale) (d : Int) : Option ℝ :=
  if d = 0 then some 1
  else if 0 < d then ((tableScale s).tones[(d - 1).toNat]?).map Tone.frequencyRatio
  else none

/-- Modelled from the spec: step 5, "`periodRatio` is the scale's period tone (its final
degree) pitch ratio". -/
noncomputable def periodRatio (s : Scale) : Option ℝ :=
  ((tableScale s).tones.getLast?).map Tone.frequencyRatio

/-- Modelled from the spec: steps 1 to 5 for one note: the ratio of its degree, "then
multiply by `periodRatio^period`"; none for an unmapped note. -/
noncomputable def pitchRatioOfNote (s : Scale) (k : KeyboardMapping) (mn : Int) : Option ℝ :=
  match degreeRatio s (degreeIndex s k mn), periodRatio s with
  | some r, some p => some (r * p ^ period s k mn)
  | _, _ => none

/-- Modelled from the spec: what the frequency and log-frequency tables hold for an
unmapped note in legacy mode, "a defined-but-meaningless sentinel value" (step 4). The
spec names no value; nothing proved below depends on this one. -/
def legacyUnmappedValue : ℝ := 0

/-- Modelled from the spec: step 6 for the note `mn`, given the pitch ratio `a` of the
anchor note: "Absolute frequency = `mapping.anchorFrequency * (pitchRatioOfNote /
pitchRatioOfAnchorNote)`". -/
noncomputable def frequencyEntry (s : Scale) (k : KeyboardMapping) (a : ℝ) (mn : Int) : ℝ :=
  match pitchRatioOfNote s k mn with
  | some r => k.tuningFrequency * (r / a)
  | none => legacyUnmappedValue

/-- Modelled from the spec: step 7, "`logFrequencyTable[mn] = log2(frequencyTable[mn] /
referenceMidiZeroFrequency)`". -/
noncomputable def logFrequencyEntry (s : Scale) (k : KeyboardMapping) (a : ℝ) (mn : Int) : ℝ :=
  match pitchRatioOfNote s k mn with
  | some _ => Real.logb 2 (frequencyEntry s k a mn / MIDI_0_FREQ)
  | none => legacyUnmappedValue

/-- Modelled from the spec: step 7, "`scalePositionTable[mn] = degreeIndex` (or invalid
marker)", the marker being -1. -/
noncomputable def scalePositionEntry (s : Scale) (k : KeyboardMapping) (mn : Int) : Int :=
  if degreeIndex s k mn < 0 then -1 else degreeIndex s k mn

/-- Modelled from the spec: the constructor `Tuning(const Scale &, const KeyboardMapping
&, bool allowTuningCenterOnUnmapped = false)` (declared at Tunings.h:291, defined in
`TuningsImpl.h`) with the flag at its default, the construction algorithm of section
4.5 in legacy mode. The table entry of index `i` belongs to the note `i - 256`.
Construction fails (section 7) on a degree index past the scale (RangeError), on a
period ratio of exactly 1, and on an anchor note that is unmapped
(ConfigurationError). -/
noncomputable def Tuning.ofScaleAndMapping (s : Scale) (k : KeyboardMapping) :
    Except TuningError Tuning :=
  if (List.range Tuning.N.toNat).any
      (fun (i : Nat) => decide ((tableScale s).count < degreeIndex s k ((i : Int) - 256))) then
    Except.error (TuningError.new "Mapping refers to a degree outside the scale")
  else if periodRatio s = some 1 then
    Except.error (TuningError.new "Degenerate period ratio")
  else
    match pitchRatioOfNote s k k.tuningConstantNote with
    | none => Except.error (TuningError.new "Tuning constant note is unmapped")
    | some a =>
        Except.ok
          { scale := s
            keyboardMapping := k
            notationMapping := NotationMapping.new
            ptable := (List.range Tuning.N.toNat).map
              (fun (i : Nat) => frequencyEntry s k a ((i : Int) - 256))
            lptable := (List.range Tuning.N.toNat).map
              (fun (i : Nat) => logFrequencyEntry s k a ((i : Int) - 256))
            scalepositiontable := (List.range Tuning.N.toNat).map
              (fun (i : Nat) => scalePositionEntry s k ((i : Int) - 256))
            allowTuningCenterOnUnmapped := false }

/-- Modelled from the spec: the constructor `Tuning()` (declared at Tunings.h:283, its
body in `TuningsImpl.h`), "a tuning with even temperament and standard mapping". The
arguments are those of `KeyboardMapping.new`. -/
noncomputable def Tuning.new (firstMidi lastMidi octaveDegrees : Int) :
    Except TuningError Tuning :=
  Tuning.ofScaleAndMapping evenTemperament12NoteScale
    (KeyboardMapping.new firstMidi lastMidi octaveDegrees)

/-- Modelled from the spec: `Tuning::frequencyForMidiNote` (declared at Tunings.h:329,
its body in `TuningsImpl.h`): "returns `frequencyTable[mn]`", "bounds-checked against the
fixed window; out-of-window input is an error" (none). -/
def Tuning.frequencyForMidiNote (t : Tuning) (mn : Int) : Option ℝ :=
  if 0 ≤ Tuning.tableIndex mn ∧ Tuning.tableIndex mn < Tuning.N then
    t.ptable[(Tuning.tableIndex mn).toNat]?
  else none

/-- Modelled from the spec: `Tuning::frequencyForMidiNoteScaledByMidi0` (declared at
Tunings.h:330, defined in `TuningsImpl.h`): "returns `frequencyTable[mn] /
referenceMidiZeroFrequency`". -/
noncomputable def Tuning.frequencyForMidiNoteScaledByMidi0 (t : Tuning) (mn : Int) :
    Option ℝ :=
  (t.frequencyForMidiNote mn).map (fun f => f / MIDI_0_FREQ)

/-- Modelled from the spec: `Tuning::logScaledFrequencyForMidiNote` (declared at
Tunings.h:331, defined in `TuningsImpl.h`): "returns `logFrequencyTable[mn]`", bounds
checked like the other queries. -/
def Tuning.logScaledFrequencyForMidiNote (t : Tuning) (mn : Int) : Option ℝ :=
  if 0 ≤ Tuning.tableIndex mn ∧ Tuning.tableIndex mn < Tuning.N then
    t.lptable[(Tuning.tableIndex mn).toNat]?
  else none

/-! ## Auxiliary facts about powers of two -/

/-- A real power of two raised to a natural power, when the product of the exponents
is a natural number. -/
lemma two_rpow_pow (q : ℝ) (n m : ℕ) (hm : q * n = m) : ((2 : ℝ) ^ q) ^ n = 2 ^ m := by
  rw [← Real.rpow_natCast ((2 : ℝ) ^ q) n, ← Real.rpow_mul (by norm_num), hm,
    Real.rpow_natCast]

/-- A lower bound on a real power of two, checked on natural powers. -/
lemma lt_two_rpow (q x : ℝ) (n m : ℕ) (hm : q * n = m) (h : x ^ n < 2 ^ m) :
    x < (2 : ℝ) ^ q := by
  have h0 : (0 : ℝ) ≤ (2 : ℝ) ^ q := by positivity
  rw [← two_rpow_pow q n m hm] at h
  exact lt_of_pow_lt_pow_left₀ n h0 h

/-- An upper bound on a real power of two, checked on natural powers. -/
lemma two_rpow_lt (q x : ℝ) (n m : ℕ) (hx : 0 ≤ x) (hm : q * n = m) (h : 2 ^ m < x ^ n) :
    (2 : ℝ) ^ q < x := by
  rw [← two_rpow_pow q n m hm] at h
  exact lt_of_pow_lt_pow_left₀ n hx h

/-- The base-2 logarithm of 3/2 to three decimals. -/
lemma logb_two_three_halves :
    (0.584 : ℝ) < Real.logb 2 (3 / 2) ∧ Real.logb 2 (3 / 2) < 0.585 := by
  constructor
  · rw [Real.lt_logb_iff_rpow_lt (by norm_num) (by norm_num)]
    exact two_rpow_lt 0.584 (3 / 2) 1000 584 (by norm_num) (by norm_num) (by norm_num)
  · rw [Real.logb_lt_iff_lt_rpow (by norm_num) (by norm_num)]
    exact lt_two_rpow 0.585 (3 / 2) 1000 585 (by norm_num) (by norm_num)

/-! ## Auxiliary facts about the table window -/

/-- The index of a note is a valid table index exactly on the window. -/
lemma tableIndex_mem_table (mn : Int) :
    (0 ≤ Tuning.tableIndex mn ∧ Tuning.tableIndex mn < Tuning.N) ↔ (-256 ≤ mn ∧ mn ≤ 255) := by
  unfold Tuning.tableIndex Tuning.N
  omega

/-! ## Auxiliary facts about the default tuning -/

/-- The table math runs on the twelve-tone scale itself. -/
lemma tableScale_evenTemperament12NoteScale :
    tableScale evenTemperament12NoteScale = evenTemperament12NoteScale := by
  simp [tableScale, evenTemperament12NoteScale]

/-- Degree `d` of the twelve-tone scale sounds `d` semitones above the root. -/
lemma degreeRatio_evenTemperament12NoteScale (d : Int) (h0 : 0 ≤ d) (h1 : d < 12) :
    degreeRatio evenTemperament12NoteScale d = some ((2 : ℝ) ^ ((d : ℝ) / 12)) := by
  unfold degreeRatio
  rw [tableScale_evenTemperament12NoteScale]
  interval_cases d <;>
    simp [evenTemperament12NoteScale, Tone.frequencyRatio, Tone.ofCents] <;> norm_num

/-- The period of the twelve-tone scale is the octave. -/
lemma periodRatio_evenTemperament12NoteScale :
    periodRatio evenTemperament12NoteScale = some 2 := by
  unfold periodRatio
  rw [tableScale_evenTemperament12NoteScale]
  simp [evenTemperament12NoteScale, Tone.frequencyRatio, Tone.ofCents]

/-- The default mapping repeats every twelve keys. -/
lemma periodLength_standard (f l o : Int) :
    periodLength evenTemperament12NoteScale (KeyboardMapping.new f l o) = 12 := by
  unfold periodLength
  rw [tableScale_evenTemperament12NoteScale]
  simp [KeyboardMapping.new, evenTemperament12NoteScale]

/-- Under the default mapping the degree of a note is its distance from note 60 modulo
twelve. -/
lemma degreeIndex_standard (f l o mn : Int) :
    degreeIndex evenTemperament12NoteScale (KeyboardMapping.new f l o) mn = (mn - 60) % 12 := by
  unfold degreeIndex posInPeriod
  rw [periodLength_standard]
  simp [KeyboardMapping.new]

/-- Under the default mapping the period of a note is its octave relative to note 60. -/
lemma period_standard (f l o mn : Int) :
    period evenTemperament12NoteScale (KeyboardMapping.new f l o) mn = (mn - 60) / 12 := by
  unfold period
  rw [periodLength_standard]
  simp [KeyboardMapping.new]

/-- In standard tuning the pitch ratio of a note to note 60 is a semitone per key. -/
lemma pitchRatioOfNote_standard (f l o mn : Int) :
    pitchRatioOfNote evenTemperament12NoteScale (KeyboardMapping.new f l o) mn
      = some ((2 : ℝ) ^ (((mn : ℝ) - 60) / 12)) := by
  unfold pitchRatioOfNote
  rw [degreeIndex_standard, period_standard,
    degreeRatio_evenTemperament12NoteScale _ (Int.emod_nonneg _ (by norm_num))
      (Int.emod_lt_of_pos _ (by norm_num)),
    periodRatio_evenTemperament12NoteScale]
  simp only [Option.some.injEq]
  have key : (mn : ℝ) - 60 = 12 * (((mn - 60) / 12 : Int) : ℝ) + (((mn - 60) % 12 : Int) : ℝ) := by
    have := Int.ediv_add_emod (mn - 60) 12
    exact_mod_cast this.symm
  rw [key, ← Real.rpow_intCast, ← Real.rpow_add (by norm_num)]
  congr 1
  ring

/-- The frequency entry of a note in standard tuning, scaled by `MIDI_0_FREQ`. -/
lemma frequencyEntry_standard (f l o mn : Int) :
    frequencyEntry evenTemperament12NoteScale (KeyboardMapping.new f l o) 1 mn / MIDI_0_FREQ
      = (2 : ℝ) ^ ((mn : ℝ) / 12) := by
  have hM : MIDI_0_FREQ ≠ 0 := by norm_num [MIDI_0_FREQ]
  have h5 : (2 : ℝ) ^ (5 : ℕ) = (2 : ℝ) ^ ((5 : ℕ) : ℝ) := (Real.rpow_natCast 2 5).symm
  unfold frequencyEntry
  rw [pitchRatioOfNote_standard]
  simp only [KeyboardMapping.new, div_one]
  rw [show MIDI_0_FREQ * 2 ^ 5 * (2 : ℝ) ^ (((mn : ℝ) - 60) / 12) / MIDI_0_FREQ
      = 2 ^ 5 * (2 : ℝ) ^ (((mn : ℝ) - 60) / 12) by field_simp; ring,
    h5, ← Real.rpow_add (by norm_num)]
  congr 1
  push_cast
  ring

/-- The log-frequency entry of a note in standard tuning. -/
lemma logFrequencyEntry_standard (f l o mn : Int) :
    logFrequencyEntry evenTemperament12NoteScale (KeyboardMapping.new f l o) 1 mn
      = (mn : ℝ) / 12 := by
  unfold logFrequencyEntry
  rw [pitchRatioOfNote_standard]
  simp only
  rw [frequencyEntry_standard, Real.logb_rpow (by norm_num) (by norm_num)]

/-- The default construction succeeds, with the anchor ratio 1. -/
lemma Tuning_new_eq (f l o : Int) :
    Tuning.new f l o = Except.ok
      { scale := evenTemperament12NoteScale
        keyboardMapping := KeyboardMapping.new f l o
        notationMapping := NotationMapping.new
        ptable := (List.range Tuning.N.toNat).map
          (fun (i : Nat) => frequencyEntry evenTemperament12NoteScale (KeyboardMapping.new f l o) 1
            ((i : Int) - 256))
        lptable := (List.range Tuning.N.toNat).map
          (fun (i : Nat) => logFrequencyEntry evenTemperament12NoteScale (KeyboardMapping.new f l o) 1
            ((i : Int) - 256))
        scalepositiontable := (List.range Tuning.N.toNat).map
          (fun (i : Nat) => scalePositionEntry evenTemperament12NoteScale (KeyboardMapping.new f l o)
            ((i : Int) - 256))
        allowTuningCenterOnUnmapped := false } := by
  have h1 : (List.range Tuning.N.toNat).any
      (fun (i : Nat) => decide ((tableScale evenTemperament12NoteScale).count
        < degreeIndex evenTemperament12NoteScale (KeyboardMapping.new f l o) ((i : Int) - 256)))
      = false := by
    rw [List.any_eq_false]
    intro i _
    rw [tableScale_evenTemperament12NoteScale, degreeIndex_standard]
    simp only [evenTemperament12NoteScale, decide_eq_true_eq]
    omega
  have h2 : periodRatio evenTemperament12NoteScale ≠ some 1 := by
    rw [periodRatio_evenTemperament12NoteScale]
    norm_num
  have h3 : pitchRatioOfNote evenTemperament12NoteScale (KeyboardMapping.new f l o)
      (KeyboardMapping.new f l o).tuningConstantNote = some 1 := by
    rw [pitchRatioOfNote_standard]
    simp [KeyboardMapping.new]
  unfold Tuning.new Tuning.ofScaleAndMapping
  rw [h1, if_neg h2, h3]
  simp

/-- Reading the frequency table inside the window. -/
lemma frequencyForMidiNote_of_ptable (t : Tuning) (g : Int → ℝ)
    (ht : t.ptable = (List.range Tuning.N.toNat).map (fun (i : Nat) => g ((i : Int) - 256)))
    (n : Int) (h1 : -256 ≤ n) (h2 : n ≤ 255) :
    t.frequencyForMidiNote n = some (g n) := by
  unfold Tuning.frequencyForMidiNote
  rw [if_pos ((tableIndex_mem_table n).mpr ⟨h1, h2⟩), ht, List.getElem?_map,
    List.getElem?_range]
  · simp only [Tuning.tableIndex, Option.map_some']
    congr 2
    omega
  · simp only [Tuning.tableIndex, Tuning.N]
    omega

/-- Reading the log-frequency table inside the window. -/
lemma logScaledFrequencyForMidiNote_of_lptable (t : Tuning) (g : Int → ℝ)
    (ht : t.lptable = (List.range Tuning.N.toNat).map (fun (i : Nat) => g ((i : Int) - 256)))
    (n : Int) (h1 : -256 ≤ n) (h2 : n ≤ 255) :
    t.logScaledFrequencyForMidiNote n = some (g n) := by
  unfold Tuning.logScaledFrequencyForMidiNote
  rw [if_pos ((tableIndex_mem_table n).mpr ⟨h1, h2⟩), ht, List.getElem?_map,
    List.getElem?_range]
  · simp only [Tuning.tableIndex, Option.map_some']
    congr 2
    omega
  · simp only [Tuning.tableIndex, Tuning.N]
    omega

/-! ## Properties -/

/-- C1: in the default-constructed Tuning, for every note `mn` of the window
`-256 ≤ mn ≤ 255`, `frequencyForMidiNoteScaledByMidi0(mn) = 2^(mn/12)` and
`logScaledFrequencyForMidiNote(mn) = mn/12`; the scaled frequency is 1 at note 0 and 32
at note 60, the log-scaled frequency 0 at note 0 and 5 at note 60. -/
theorem C1_standard_tuning (f l o mn : Int) (hlo : -256 ≤ mn) (hhi : mn ≤ 255) :
    ∃ t, Tuning.new f l o = Except.ok t ∧
      t.frequencyForMidiNoteScaledByMidi0 mn = some ((2 : ℝ) ^ ((mn : ℝ) / 12)) ∧
      t.logScaledFrequencyForMidiNote mn = some ((mn : ℝ) / 12) ∧
      t.frequencyForMidiNoteScaledByMidi0 0 = some 1 ∧
      t.frequencyForMidiNoteScaledByMidi0 60 = some 32 ∧
      t.logScaledFrequencyForMidiNote 0 = some 0 ∧
      t.logScaledFrequencyForMidiNote 60 = some 5 := by
  obtain ⟨t, ht, hp, hl⟩ : ∃ t, Tuning.new f l o = Except.ok t ∧
      t.ptable = (List.range Tuning.N.toNat).map
        (fun (i : Nat) => frequencyEntry evenTemperament12NoteScale
          (KeyboardMapping.new f l o) 1 ((i : Int) - 256)) ∧
      t.lptable = (List.range Tuning.N.toNat).map
        (fun (i : Nat) => logFrequencyEntry evenTemperament12NoteScale
          (KeyboardMapping.new f l o) 1 ((i : Int) - 256)) := by
    exact ⟨_, Tuning_new_eq f l o, by simp only, by simp only⟩
  refine ⟨t, ht, ?_⟩
  have hfreq : ∀ n : Int, -256 ≤ n → n ≤ 255 →
      t.frequencyForMidiNoteScaledByMidi0 n = some ((2 : ℝ) ^ ((n : ℝ) / 12)) := by
    intro n h1 h2
    unfold Tuning.frequencyForMidiNoteScaledByMidi0
    rw [frequencyForMidiNote_of_ptable t _ hp n h1 h2, Option.map_some',
      frequencyEntry_standard]
  have hlog : ∀ n : Int, -256 ≤ n → n ≤ 255 →
      t.logScaledFrequencyForMidiNote n = some ((n : ℝ) / 12) := by
    intro n h1 h2
    rw [logScaledFrequencyForMidiNote_of_lptable t _ hl n h1 h2, logFrequencyEntry_standard]
  have h60 : (2 : ℝ) ^ (((60 : Int) : ℝ) / 12) = 32 := by
    rw [show (((60 : Int) : ℝ) / 12) = ((5 : ℕ) : ℝ) by norm_num, Real.rpow_natCast]
    norm_num
  refine ⟨hfreq mn hlo hhi, hlog mn hlo hhi, ?_, ?_, ?_, ?_⟩
  · rw [hfreq 0 (by norm_num) (by norm_num)]; simp
  · rw [hfreq 60 (by norm_num) (by norm_num), h60]
  · rw [hlog 0 (by norm_num) (by norm_num)]; simp
  · rw [hlog 60 (by norm_num) (by norm_num)]; norm_num

/-- C1 at the note 69. -/
theorem C1_standard_tuning_witness :
    (-256 : Int) ≤ 69 ∧ (69 : Int) ≤ 255 ∧
    ∃ t, Tuning.new 0 127 0 = Except.ok t ∧
      t.frequencyForMidiNoteScaledByMidi0 69 = some ((2 : ℝ) ^ (((69 : Int) : ℝ) / 12)) ∧
      t.logScaledFrequencyForMidiNote 69 = some (((69 : Int) : ℝ) / 12) ∧
      t.frequencyForMidiNoteScaledByMidi0 0 = some 1 ∧
      t.frequencyForMidiNoteScaledByMidi0 60 = some 32 ∧
      t.logScaledFrequencyForMidiNote 0 = some 0 ∧
      t.logScaledFrequencyForMidiNote 60 = some 5 :=
  ⟨by decide, by decide, C1_standard_tuning 0 127 0 69 (by decide) (by decide)⟩

/-- C2: with `N = 512` entries and the index `mn + 256`, the index of a note `mn` lies in
`[0, N)` exactly when `-256 ≤ mn ≤ 255`. -/
theorem C2_index_in_table_iff (mn : Int) :
    (0 ≤ Tuning.tableIndex mn ∧ Tuning.tableIndex mn < Tuning.N) ↔ (-256 ≤ mn ∧ mn ≤ 255) := by
  unfold Tuning.tableIndex Tuning.N
  omega

/-- C3, evaluated at the note 256: its index `256 + 256` is `N` itself, one past the last
entry; and whatever the index transform, the 513 notes from -256 to +256 cannot each
have an entry of their own among `N = 512`. -/
theorem C3_note_256_has_no_entry :
    Tuning.tableIndex 256 = Tuning.N ∧ ¬ Tuning.tableIndex 256 < Tuning.N ∧
    ¬ ∃ idx : Int → Int,
        (∀ mn, -256 ≤ mn → mn ≤ 256 → 0 ≤ idx mn ∧ idx mn < Tuning.N) ∧
        (∀ a b, -256 ≤ a → a ≤ 256 → -256 ≤ b → b ≤ 256 → idx a = idx b → a = b) := by
  refine ⟨by decide, by decide, ?_⟩
  rintro ⟨idx, hrange, hinj⟩
  have hcard : (Finset.Ico (0 : Int) Tuning.N).card < (Finset.Icc (-256 : Int) 256).card := by
    simp [Tuning.N]
  have hmaps : ∀ a ∈ Finset.Icc (-256 : Int) 256, idx a ∈ Finset.Ico (0 : Int) Tuning.N := by
    intro a ha
    rw [Finset.mem_Icc] at ha
    exact Finset.mem_Ico.mpr (hrange a ha.1 ha.2)
  obtain ⟨a, ha, b, hb, hne, heq⟩ := Finset.exists_ne_map_eq_of_card_lt_of_maps_to hcard hmaps
  rw [Finset.mem_Icc] at ha hb
  exact hne (hinj a b ha.1 ha.2 hb.1 hb.2 heq)

/-- C4: `MIDI_0_FREQ` raised by 69 equal-tempered semitones is 440 to within 1e-6:
`(440 - 1e-6)^12 < MIDI_0_FREQ^12 * 2^69 < (440 + 1e-6)^12`, that is
`|MIDI_0_FREQ * 2^(69/12) - 440| < 1e-6`. -/
theorem C4_MIDI_0_FREQ_raised_69_semitones :
    (440 - 1e-6 : ℝ) ^ 12 < MIDI_0_FREQ ^ 12 * 2 ^ 69 ∧
    MIDI_0_FREQ ^ 12 * 2 ^ 69 < (440 + 1e-6 : ℝ) ^ 12 ∧
    |MIDI_0_FREQ * (2 : ℝ) ^ ((69 : ℝ) / 12) - 440| < 1e-6 := by
  have hlo : (440 - 1e-6 : ℝ) ^ 12 < MIDI_0_FREQ ^ 12 * 2 ^ 69 := by
    norm_num [MIDI_0_FREQ]
  have hhi : MIDI_0_FREQ ^ 12 * 2 ^ 69 < (440 + 1e-6 : ℝ) ^ 12 := by
    norm_num [MIDI_0_FREQ]
  have hM : (0 : ℝ) < MIDI_0_FREQ := by norm_num [MIDI_0_FREQ]
  have hpow : (MIDI_0_FREQ * (2 : ℝ) ^ ((69 : ℝ) / 12)) ^ 12 = MIDI_0_FREQ ^ 12 * 2 ^ 69 := by
    rw [mul_pow, two_rpow_pow ((69 : ℝ) / 12) 12 69 (by norm_num)]
  have hx : (0 : ℝ) ≤ MIDI_0_FREQ * (2 : ℝ) ^ ((69 : ℝ) / 12) := by positivity
  refine ⟨hlo, hhi, ?_⟩
  rw [abs_lt]
  constructor
  · have : (440 - 1e-6 : ℝ) < MIDI_0_FREQ * (2 : ℝ) ^ ((69 : ℝ) / 12) := by
      apply lt_of_pow_lt_pow_left₀ 12 hx
      rw [hpow]; exact hlo
    linarith
  · have : MIDI_0_FREQ * (2 : ℝ) ^ ((69 : ℝ) / 12) < (440 + 1e-6 : ℝ) := by
      apply lt_of_pow_lt_pow_left₀ 12 (by norm_num)
      rw [hpow]; exact hhi
    linarith

/-- C5: the default-constructed AbletonScale has `referencePitchOctave = 3`,
`referencePitchIndex = 0` and `referencePitchFreq = MIDI_0_FREQ * 2^5`, which is 32 times
`MIDI_0_FREQ`, the frequency five octaves (60 semitones) above MIDI note 0. -/
theorem C5_default_AbletonScale (km : KeyboardMapping) :
    (AbletonScale.new km).referencePitchOctave = 3 ∧
    (AbletonScale.new km).referencePitchIndex = 0 ∧
    (AbletonScale.new km).referencePitchFreq = MIDI_0_FREQ * 2 ^ 5 ∧
    (AbletonScale.new km).referencePitchFreq = 32 * MIDI_0_FREQ ∧
    (AbletonScale.new km).referencePitchFreq = MIDI_0_FREQ * (2 : ℝ) ^ ((60 : ℝ) / 12) := by
  have h5 : (2 : ℝ) ^ ((60 : ℝ) / 12) = 32 := by
    rw [show ((60 : ℝ) / 12) = ((5 : ℕ) : ℝ) by norm_num, Real.rpow_natCast]
    norm_num
  refine ⟨rfl, rfl, ?_, ?_, ?_⟩
  · simp [AbletonScale.new]; norm_num
  · simp [AbletonScale.new]; ring
  · rw [h5]; simp [AbletonScale.new]

/-- C6, as stated, fails on both examples: for "700.0" the Tone has `cents = 700` and
its `floatValue` is `700/1200 + 1 = 19/12`, about 1.5833, more than 0.08 away from
1.4983; for "3/2" its `floatValue` is `log2(3/2) + 1`, more than 0.08 away from 1.5. -/
theorem C6_floatValue_is_not_the_frequency_ratio :
    (∃ t, toneFromString "700.0" (-1) = Except.ok t ∧ t.cents = 700 ∧
      t.floatValue = 19 / 12 ∧ ¬ |t.floatValue - 1.4983| < 0.08) ∧
    (∃ t, toneFromString "3/2" (-1) = Except.ok t ∧
      t.floatValue = Real.logb 2 (3 / 2) + 1 ∧ ¬ |t.floatValue - 1.5| < 0.08) := by
  have hcents : readToneText "700.0" = ToneText.cents 7000 1 := by decide
  have hratio : readToneText "3/2" = ToneText.ratio 3 2 := by decide
  obtain ⟨hlo, _⟩ := logb_two_three_halves
  constructor
  · refine ⟨_, by simp only [toneFromString, hcents]; rfl, ?_, ?_, ?_⟩
    · norm_num
    · norm_num
    · norm_num [abs_lt]
  · refine ⟨_, by simp only [toneFromString, hratio]; rfl, ?_, ?_⟩
    · norm_num
    · show ¬ |1200 * Real.logb 2 (((3 : Int) : ℝ) / ((2 : Int) : ℝ)) / 1200 + 1 - 1.5| < 0.08
      rw [abs_lt]
      norm_num
      intro _
      linarith

/-- C6, amended: "3/2" yields a ratio tone with `ratio_n = 3`, `ratio_d = 2` and
`cents = 1200 * log2(3/2)`, whose `floatValue` is `cents/1200 + 1`, between 1.584 and
1.585, while its frequency ratio `2^(cents/1200)` is 1.5; "700.0" yields a cents tone
with `cents = 700`, whose `floatValue` is `cents/1200 + 1 = 19/12`, while its
frequency ratio `2^(cents/1200)` lies between 1.4983 and 1.4984. -/
theorem C6_toneFromString_examples (lineno : Int) :
    (∃ t, toneFromString "3/2" lineno = Except.ok t ∧
      t.type = ToneType.kToneRatio ∧ t.ratio_n = 3 ∧ t.ratio_d = 2 ∧
      t.cents = 1200 * Real.logb 2 (3 / 2) ∧ t.floatValue = t.cents / 1200 + 1 ∧
      1.584 < t.floatValue ∧ t.floatValue < 1.585 ∧ t.frequencyRatio = 1.5) ∧
    (∃ t, toneFromString "700.0" lineno = Except.ok t ∧
      t.type = ToneType.kToneCents ∧ t.cents = 700 ∧
      t.floatValue = t.cents / 1200 + 1 ∧ t.floatValue = 19 / 12 ∧
      1.4983 < t.frequencyRatio ∧ t.frequencyRatio < 1.4984) := by
  have hratio : readToneText "3/2" = ToneText.ratio 3 2 := by decide
  have hcents : readToneText "700.0" = ToneText.cents 7000 1 := by decide
  obtain ⟨hlo, hhi⟩ := logb_two_three_halves
  constructor
  · refine ⟨_, by simp only [toneFromString, hratio]; rfl, rfl, rfl, rfl, ?_, rfl, ?_, ?_, ?_⟩
    · norm_num
    · show (1.584 : ℝ) < 1200 * Real.logb 2 (((3 : Int) : ℝ) / ((2 : Int) : ℝ)) / 1200 + 1
      norm_num
      linarith
    · show 1200 * Real.logb 2 (((3 : Int) : ℝ) / ((2 : Int) : ℝ)) / 1200 + 1 < (1.585 : ℝ)
      norm_num
      linarith
    · show (2 : ℝ) ^ (1200 * Real.logb 2 (((3 : Int) : ℝ) / ((2 : Int) : ℝ)) / 1200) = 1.5
      rw [mul_div_assoc, mul_comm, div_mul_cancel₀ _ (by norm_num : (1200 : ℝ) ≠ 0),
        Real.rpow_logb (by norm_num) (by norm_num) (by norm_num)]
      norm_num
  · refine ⟨_, by simp only [toneFromString, hcents]; rfl, rfl, ?_, rfl, ?_, ?_, ?_⟩
    · norm_num
    · norm_num
    · show (1.4983 : ℝ) < (2 : ℝ) ^ ((((7000 : Int) : ℝ) / (10 : ℝ) ^ 1) / 1200)
      exact lt_two_rpow _ 1.4983 12 7 (by norm_num) (by norm_num)
    · show (2 : ℝ) ^ ((((7000 : Int) : ℝ) / (10 : ℝ) ^ 1) / 1200) < (1.4984 : ℝ)
      exact two_rpow_lt _ 1.4984 12 7 (by norm_num) (by norm_num) (by norm_num)

/-- C7: `evenDivisionOfSpanByM(2, 12)` and `evenTemperament12NoteScale()` both have
`count = 12` and twelve tones, and degree for degree the same cents, `(i+1) * 100` at
index `i`, so that the last degree is 1200 cents. -/
theorem C7_evenDivisionOfSpanByM_2_12 :
    (evenDivisionOfSpanByM 2 12).count = 12 ∧ evenTemperament12NoteScale.count = 12 ∧
    (evenDivisionOfSpanByM 2 12).tones.length = 12 ∧
    evenTemperament12NoteScale.tones.length = 12 ∧
    (evenDivisionOfSpanByM 2 12).tones.map Tone.cents
      = evenTemperament12NoteScale.tones.map Tone.cents ∧
    evenTemperament12NoteScale.tones.map Tone.cents
      = (List.range 12).map (fun (i : Nat) => ((i : ℝ) + 1) * 100) ∧
    (evenTemperament12NoteScale.tones.getLast?).map Tone.cents = some 1200 := by
  have hlog : Real.logb 2 2 = 1 := Real.logb_self_eq_one (by norm_num)
  refine ⟨rfl, rfl, ?_, ?_, ?_, ?_, ?_⟩
  · simp [evenDivisionOfSpanByM]
  · simp [evenTemperament12NoteScale]
  · simp [evenDivisionOfSpanByM, evenTemperament12NoteScale, Tone.ofCents, List.range_succ, hlog]
    norm_num
  · simp [evenTemperament12NoteScale, Tone.ofCents, List.range_succ]
    norm_num
  · simp [evenTemperament12NoteScale, Tone.ofCents]

/-- C8, as stated, fails on a message with an embedded NUL character: for the
three-character message `a`, NUL, `b` the text read back from `what()` is `a`. -/
theorem C8_what_stops_at_NUL :
    (TuningError.new (String.mk ['a', Char.ofNat 0, 'b'])).what = "a" ∧
    (TuningError.new (String.mk ['a', Char.ofNat 0, 'b'])).what
      ≠ String.mk ['a', Char.ofNat 0, 'b'] := by
  constructor <;> decide

/-- C8, amended: for every message `m` that holds no NUL character, a TuningError
constructed with `m` reports exactly `m` from `what()`. -/
theorem C8_what_returns_message (m : String) (h : Char.ofNat 0 ∉ m.data) :
    (TuningError.new m).what = m := by
  unfold TuningError.what TuningError.new c_str
  have hall : ∀ x ∈ m.data, (x != Char.ofNat 0) = true := by
    intro x hx
    simp only [bne_iff_ne, ne_eq]
    rintro rfl
    exact h hx
  rw [List.takeWhile_eq_self_iff.mpr hall]

/-- C8, amended, at the message "Degenerate period ratio". -/
theorem C8_what_returns_message_witness :
    Char.ofNat 0 ∉ "Degenerate period ratio".data ∧
    (TuningError.new "Degenerate period ratio").what = "Degenerate period ratio" :=
  ⟨by decide, C8_what_returns_message "Degenerate period ratio" (by decide)⟩

/-- C9: the default-constructed Tone is the unison `1/1`: a ratio tone with
`ratio_n = ratio_d = 1` and `cents = 0`, whose `floatValue` is `cents/1200 + 1 = 1.0`. -/
theorem C9_default_Tone (lineno : Int) :
    (Tone.new lineno).type = ToneType.kToneRatio ∧
    (Tone.new lineno).ratio_n = 1 ∧ (Tone.new lineno).ratio_d = 1 ∧
    (Tone.new lineno).stringRep = "1/1" ∧
    (Tone.new lineno).cents = 0 ∧
    (Tone.new lineno).floatValue = (Tone.new lineno).cents / 1200 + 1 ∧
    (Tone.new lineno).floatValue = 1.0 := by
  refine ⟨rfl, rfl, rfl, rfl, rfl, ?_, rfl⟩
  simp only [Tone.new]
  norm_num

/-- C10: the default-constructed Scale is the empty scale: `count = 0`, no tones (so
the number of stored tones is `count`, and `count ≥ 0`), no comments. -/
theorem C10_default_Scale :
    Scale.new.count = 0 ∧ Scale.new.tones = [] ∧
    (Scale.new.tones.length : Int) = Scale.new.count ∧ 0 ≤ Scale.new.count ∧
    Scale.new.comments = [] ∧ Scale.new.name = "empty scale" := by
  refine ⟨rfl, rfl, rfl, ?_, rfl, rfl⟩
  simp [Scale.new]

end Tunings
